import Mathlib

/-!
Shallow embedding of the route-planning core of `side.py`:
`calculate_deal_score`, `generate_optimal_route`, `generate_bar_reason`,
`generate_route_tips`, together with theorems about them.

Python strings are Lean `String`s; Python's substring test `needle in hay`
is `strContains hay needle`; `str.lower()` is `lowerStr` (ASCII data).
Python floats are modelled as exact rationals `ℚ`.  The ratings dict is a
partial map `String → Option ℚ`; a `KeyError` is modelled by the whole
route builder returning `none`.  The `random.uniform(0, 2)` draws of the
"Adventure Mix" style are injected as a function `us : Nat → ℚ` giving the
draw consumed for the candidate at iteration index `i`.
-/

/-- `isPrefixCh n h`: the char list `n` is a prefix of `h`. -/
def isPrefixCh : List Char → List Char → Bool
  | [], _ => true
  | _ :: _, [] => false
  | a :: as, b :: bs => a == b && isPrefixCh as bs

/-- `containsCh n h`: the char list `n` occurs contiguously inside `h`
(Python's `in` on strings). -/
def containsCh : List Char → List Char → Bool
  | n, [] => isPrefixCh n []
  | n, h :: hs => isPrefixCh n (h :: hs) || containsCh n hs

/-- Python `needle in hay` for strings. -/
def strContains (hay needle : String) : Bool :=
  containsCh needle.data hay.data

/-- Python `s.lower()` (ASCII, which covers every keyword the code tests). -/
def lowerStr (s : String) : String :=
  ⟨s.data.map Char.toLower⟩

/-- One row of the specials table: bar name, day of week, deal text. -/
structure Special where
  bar : String
  day : String
  deal : String
deriving DecidableEq

/-- The transient per-candidate record built inside `generate_optimal_route`. -/
structure ScoredBar where
  bar : String
  deal : String
  rating : ℚ
  deal_score : ℚ
  total_score : ℚ
deriving DecidableEq

/-- One stop of the returned route. -/
structure RouteStop where
  bar : String
  deal : String
  score : ℚ
  reason : String
deriving DecidableEq

/-- The price-indicator branch of `calculate_deal_score`: at most one of
+3/+2/+1, by a case-sensitive substring test on the raw text. -/
def priceBonus (deal_text : String) : ℚ :=
  if strContains deal_text "$1" || strContains deal_text "$2" then 3
  else if strContains deal_text "$3" then 2
  else if strContains deal_text "$4" || strContains deal_text "$5" then 1
  else 0

/-- One iteration of the keyword loops of `calculate_deal_score`: add `x`
when the keyword was found. -/
def keywordBonus (found : Bool) (x : ℚ) : ℚ :=
  if found then x else 0

/-- `calculate_deal_score` of `side.py`: base 5, price bonus, +1 per value
keyword and +0.5 per premium keyword (case-insensitive), capped at 10. -/
def calculate_deal_score (deal_text : String) : ℚ :=
  let deal_lower := lowerStr deal_text
  let score : ℚ := 5 + priceBonus deal_text
    + keywordBonus (strContains deal_lower "happy hour") 1
    + keywordBonus (strContains deal_lower "half off") 1
    + keywordBonus (strContains deal_lower "draft") 1
    + keywordBonus (strContains deal_lower "50 cent") 1
    + keywordBonus (strContains deal_lower "pitcher") 1
    + keywordBonus (strContains deal_lower "wine") 0.5
    + keywordBonus (strContains deal_lower "cocktail") 0.5
    + keywordBonus (strContains deal_lower "premium") 0.5
  min score 10

/-- The per-candidate scoring step of `generate_optimal_route`: deal score
(neutral 5 unless `budget_focus`), then the style-dependent total score,
where `u` is the random draw used by the "Adventure Mix" branch. -/
def scoreBar (style : String) (budget_focus : Bool) (u : ℚ)
    (bar deal : String) (base_rating : ℚ) : ScoredBar :=
  let deal_score : ℚ := if budget_focus then calculate_deal_score deal else 5
  let total_score : ℚ :=
    if style = "High-rated Only" then base_rating * 1.5
    else if style = "Adventure Mix" then base_rating + deal_score * 0.3 + u
    else base_rating + deal_score * 0.5
  { bar := bar, deal := deal, rating := base_rating,
    deal_score := deal_score, total_score := total_score }

/-- The scoring loop of `generate_optimal_route` over the day's rows, in row
order; `i` is the iteration index (selects the random draw `us i`).  A bar
missing from `rankings` is Python's `KeyError`, modelled as `none`. -/
def scoreBars (rankings : String → Option ℚ) (style : String)
    (budget_focus : Bool) (us : Nat → ℚ) :
    List Special → Nat → Option (List ScoredBar)
  | [], _ => some []
  | row :: rest, i =>
    match rankings row.bar with
    | none => none
    | some r =>
      match scoreBars rankings style budget_focus us rest (i + 1) with
      | none => none
      | some bs => some (scoreBar style budget_focus (us i) row.bar row.deal r :: bs)

/-- The comparator of the selection sort: Python's stable
`sort(key=total_score, reverse=True)` is a stable sort under
"a's total score is at least b's". -/
def leBar (a b : ScoredBar) : Bool :=
  decide (b.total_score ≤ a.total_score)

/-- `generate_bar_reason` of `side.py`.  `position` is the index from
`enumerate` (a natural number); the dead `position == len([]) - 1` check is
kept as an integer comparison with `-1`, exactly as Python evaluates it. -/
def generate_bar_reason (bar_info : ScoredBar) (position : Nat)
    (style : String) (budget_focus : Bool) : String :=
  let reasons : List String := []
  let reasons : List String :=
    if position = 0 then
      if 8 ≤ bar_info.rating then reasons ++ ["Perfect starter - one of your top-rated bars"]
      else reasons ++ ["Great way to kick off the night"]
    else if (position : Int) = (([] : List String).length : Int) - 1 then
      reasons ++ ["Perfect finale to your night out"]
    else reasons ++ ["Excellent mid-night stop"]
  let reasons : List String :=
    if 8 ≤ bar_info.rating then
      reasons ++ ["High personal rating (" ++ toString bar_info.rating ++ "/10)"]
    else reasons
  let reasons : List String :=
    if budget_focus ∧ 7 ≤ bar_info.deal_score then reasons ++ ["Great drink deals"]
    else reasons
  let reasons : List String :=
    if style = "Adventure Mix" ∧ bar_info.rating < 7 then
      reasons ++ ["Good opportunity to try something new"]
    else reasons
  reasons.headD "Solid choice for your route"

/-- `generate_optimal_route` of `side.py`: filter the table to `day`, bail
out with an empty route when too few rows, score every row, stable-sort by
total score descending, take the first `num_stops`, and attach reasons.
`none` models the `KeyError` raised on a missing rating. -/
def generate_optimal_route (specials : List Special) (day : String)
    (rankings : String → Option ℚ) (num_stops : Nat) (style : String)
    (budget_focus : Bool) (us : Nat → ℚ) : Option (List RouteStop) :=
  let day_data := specials.filter (fun r => r.day == day)
  if day_data.length < num_stops then some []
  else
    match scoreBars rankings style budget_focus us day_data 0 with
    | none => none
    | some bars =>
      let sorted := bars.mergeSort leBar
      let selected := sorted.take num_stops
      some (selected.enum.map (fun p =>
        { bar := p.2.bar, deal := p.2.deal, score := p.2.total_score,
          reason := generate_bar_reason p.2 p.1 style budget_focus }))

/-- The `' '.join(stop deal texts lowercased)` scanned by the tip generator. -/
def joinedDeals (route : List RouteStop) : String :=
  String.intercalate " " (route.map (fun s => lowerStr s.deal))

/-- `generate_route_tips` of `side.py`: two general tips, one style tip, two
budget tips when `budget_focus`, a pacing tip for routes of length ≥ 4, and
deal-driven tips scanned over the space-joined lowercased deal texts. -/
def generate_route_tips (route : List RouteStop) (style : String)
    (budget_focus : Bool) : List String :=
  let tips : List String :=
    ["🚗 Consider ride-sharing or designating a driver for safety",
     "💧 Stay hydrated - drink water between stops"]
  let tips : List String :=
    if style = "High-rated Only" then
      tips ++ ["🌟 You're hitting your favorite spots - enjoy the familiar atmosphere!"]
    else if style = "Adventure Mix" then
      tips ++ ["🎲 Great mix of favorites and new experiences - keep an open mind!"]
    else
      tips ++ ["⚖️ Well-balanced route optimizing both preferences and value"]
  let tips : List String :=
    if budget_focus then
      tips ++ ["💰 Focus on the specials to maximize your budget",
               "🕒 Pay attention to happy hour times for extra savings"]
    else tips
  let tips : List String :=
    if 4 ≤ route.length then
      tips ++ ["⏰ Pace yourself - that's a lot of stops for one night!"]
    else tips
  let deals_text := joinedDeals route
  let tips : List String :=
    if strContains deals_text "happy hour" then
      tips ++ ["⏰ Plan your timing around happy hour specials"]
    else tips
  let tips : List String :=
    if strContains deals_text "draft" then
      tips ++ ["🍺 Several draft specials - great for beer lovers!"]
    else tips
  tips

/-! ### Deal-scorer claims -/

theorem priceBonus_nonneg (t : String) : 0 ≤ priceBonus t := by
  unfold priceBonus
  split
  · norm_num
  · split
    · norm_num
    · split <;> norm_num

theorem keywordBonus_nonneg {x : ℚ} (c : Bool) (hx : 0 ≤ x) :
    0 ≤ keywordBonus c x := by
  unfold keywordBonus
  split
  · exact hx
  · exact le_refl 0

theorem keywordBonus_le {x : ℚ} (c : Bool) (hx : 0 ≤ x) :
    keywordBonus c x ≤ x := by
  unfold keywordBonus
  split
  · exact le_refl x
  · exact hx

/-- C4: every deal text scores in [0, 10], and the showcase text
"$1 drafts, happy hour" scores exactly 10 (5 base + 3 price + 1 "happy hour"
+ 1 "draft", capped at 10). -/
theorem c4_deal_score_bounds :
    (∀ t : String, 0 ≤ calculate_deal_score t ∧ calculate_deal_score t ≤ 10) ∧
    calculate_deal_score "$1 drafts, happy hour" = 10 := by
  constructor
  · intro t
    unfold calculate_deal_score
    refine ⟨le_min ?_ (by norm_num), min_le_right _ _⟩
    have hp := priceBonus_nonneg t
    repeat refine add_nonneg ?_ (keywordBonus_nonneg _ (by norm_num))
    positivity
  · have e1 : strContains "$1 drafts, happy hour" "$1" = true := by rfl
    have e2 : lowerStr "$1 drafts, happy hour" = "$1 drafts, happy hour" := by rfl
    have e3 : strContains "$1 drafts, happy hour" "happy hour" = true := by rfl
    have e4 : strContains "$1 drafts, happy hour" "half off" = false := by rfl
    have e5 : strContains "$1 drafts, happy hour" "draft" = true := by rfl
    have e6 : strContains "$1 drafts, happy hour" "50 cent" = false := by rfl
    have e7 : strContains "$1 drafts, happy hour" "pitcher" = false := by rfl
    have e8 : strContains "$1 drafts, happy hour" "wine" = false := by rfl
    have e9 : strContains "$1 drafts, happy hour" "cocktail" = false := by rfl
    have e10 : strContains "$1 drafts, happy hour" "premium" = false := by rfl
    simp only [calculate_deal_score, priceBonus, e1, e2, e3, e4, e5, e6, e7, e8, e9, e10]
    norm_num [keywordBonus, min_def]

/-- C5: a deal text with no price token and none of the value or premium
keywords scores exactly the base 5. -/
theorem c5_deal_score_base (t : String)
    (h1 : strContains t "$1" = false) (h2 : strContains t "$2" = false)
    (h3 : strContains t "$3" = false) (h4 : strContains t "$4" = false)
    (h5 : strContains t "$5" = false)
    (k1 : strContains (lowerStr t) "happy hour" = false)
    (k2 : strContains (lowerStr t) "half off" = false)
    (k3 : strContains (lowerStr t) "draft" = false)
    (k4 : strContains (lowerStr t) "50 cent" = false)
    (k5 : strContains (lowerStr t) "pitcher" = false)
    (p1 : strContains (lowerStr t) "wine" = false)
    (p2 : strContains (lowerStr t) "cocktail" = false)
    (p3 : strContains (lowerStr t) "premium" = false) :
    calculate_deal_score t = 5 := by
  simp only [calculate_deal_score, priceBonus, h1, h2, h3, h4, h5, k1, k2, k3, k4, k5, p1, p2, p3]
  norm_num [keywordBonus, min_def]

/-- C5 witness: the empty deal text matches nothing and scores the base 5. -/
theorem c5_witness : calculate_deal_score "" = 5 :=
  c5_deal_score_base "" (by decide) (by decide) (by decide) (by decide)
    (by decide) (by decide) (by decide) (by decide) (by decide) (by decide)
    (by decide) (by decide) (by decide)

/-- C10: "$10 pitchers" contains the substring "$1", so it receives the +3
cheapest-price bonus and scores exactly like the one-dollar deal
"$1 pitchers": 5 + 3 + 1 = 9. -/
theorem c10_ten_dollar_bonus :
    strContains "$10 pitchers" "$1" = true ∧
    priceBonus "$10 pitchers" = 3 ∧
    calculate_deal_score "$10 pitchers" = 9 ∧
    calculate_deal_score "$1 pitchers" = 9 := by
  have p1 : priceBonus "$10 pitchers" = 3 := by
    unfold priceBonus
    rw [show strContains "$10 pitchers" "$1" = true from by rfl]
    norm_num
  have p2 : priceBonus "$1 pitchers" = 3 := by
    unfold priceBonus
    rw [show strContains "$1 pitchers" "$1" = true from by rfl]
    norm_num
  refine ⟨by rfl, p1, ?_, ?_⟩
  · simp only [calculate_deal_score, p1,
        show lowerStr "$10 pitchers" = "$10 pitchers" from by rfl,
        show strContains "$10 pitchers" "happy hour" = false from by rfl,
        show strContains "$10 pitchers" "half off" = false from by rfl,
        show strContains "$10 pitchers" "draft" = false from by rfl,
        show strContains "$10 pitchers" "50 cent" = false from by rfl,
        show strContains "$10 pitchers" "pitcher" = true from by rfl,
        show strContains "$10 pitchers" "wine" = false from by rfl,
        show strContains "$10 pitchers" "cocktail" = false from by rfl,
        show strContains "$10 pitchers" "premium" = false from by rfl]
    norm_num [keywordBonus, min_def]
  · simp only [calculate_deal_score, p2,
        show lowerStr "$1 pitchers" = "$1 pitchers" from by rfl,
        show strContains "$1 pitchers" "happy hour" = false from by rfl,
        show strContains "$1 pitchers" "half off" = false from by rfl,
        show strContains "$1 pitchers" "draft" = false from by rfl,
        show strContains "$1 pitchers" "50 cent" = false from by rfl,
        show strContains "$1 pitchers" "pitcher" = true from by rfl,
        show strContains "$1 pitchers" "wine" = false from by rfl,
        show strContains "$1 pitchers" "cocktail" = false from by rfl,
        show strContains "$1 pitchers" "premium" = false from by rfl]
    norm_num [keywordBonus, min_def]

/-! ### Route-builder helper lemmas -/

theorem scoreBars_length (rk : String → Option ℚ) (style : String) (bf : Bool)
    (us : Nat → ℚ) :
    ∀ (rows : List Special) (i : Nat) (bs : List ScoredBar),
      scoreBars rk style bf us rows i = some bs → bs.length = rows.length := by
  intro rows
  induction rows with
  | nil =>
    intro i bs h
    simp only [scoreBars] at h
    cases h
    rfl
  | cons row rest ih =>
    intro i bs h
    simp only [scoreBars] at h
    cases hrk : rk row.bar <;> rw [hrk] at h
    · simp at h
    · cases hrec : scoreBars rk style bf us rest (i + 1) <;> rw [hrec] at h
      · simp at h
      · simp only [Option.some.injEq] at h
        subst h
        simp [ih (i + 1) _ hrec]

theorem scoreBars_mem (rk : String → Option ℚ) (style : String) (bf : Bool)
    (us : Nat → ℚ) :
    ∀ (rows : List Special) (i : Nat) (bs : List ScoredBar),
      scoreBars rk style bf us rows i = some bs → ∀ sb ∈ bs,
      ∃ j r row, row ∈ rows ∧ rk row.bar = some r ∧
        sb = scoreBar style bf (us j) row.bar row.deal r := by
  intro rows
  induction rows with
  | nil =>
    intro i bs h sb hsb
    simp only [scoreBars] at h
    cases h
    simp at hsb
  | cons row rest ih =>
    intro i bs h sb hsb
    simp only [scoreBars] at h
    cases hrk : rk row.bar <;> rw [hrk] at h
    · simp at h
    case some r =>
      cases hrec : scoreBars rk style bf us rest (i + 1) <;> rw [hrec] at h
      · simp at h
      case some bs' =>
        simp only [Option.some.injEq] at h
        subst h
        rcases List.mem_cons.mp hsb with rfl | hmem
        · exact ⟨i, r, row, List.mem_cons_self row rest, hrk, rfl⟩
        · obtain ⟨j, q, row', hrow, hq, hsb'⟩ := ih (i + 1) bs' hrec sb hmem
          exact ⟨j, q, row', List.mem_cons_of_mem row hrow, hq, hsb'⟩

theorem scoreBars_none (rk : String → Option ℚ) (style : String) (bf : Bool)
    (us : Nat → ℚ) :
    ∀ (rows : List Special) (i : Nat) (row : Special), row ∈ rows →
      rk row.bar = none → scoreBars rk style bf us rows i = none := by
  intro rows
  induction rows with
  | nil =>
    intro i row h
    simp at h
  | cons hd rest ih =>
    intro i row hmem hnone
    simp only [scoreBars]
    rcases List.mem_cons.mp hmem with rfl | hmem'
    · rw [hnone]
    · cases hrk : rk hd.bar
      · rfl
      · rw [ih (i + 1) row hmem' hnone]

/-! ### Route-builder claims -/

/-- C1 (amended): the route has length `num_stops` whenever the day's
filtered table has at least `num_stops` rows, and is empty otherwise; in
particular an empty day-set yields an empty route. -/
theorem c1_route_length (specials : List Special) (day : String)
    (rk : String → Option ℚ) (num_stops : Nat) (style : String) (bf : Bool)
    (us : Nat → ℚ) (rt : List RouteStop)
    (h : generate_optimal_route specials day rk num_stops style bf us = some rt) :
    rt.length =
      if (specials.filter (fun s => s.day == day)).length < num_stops then 0
      else num_stops := by
  simp only [generate_optimal_route] at h
  split at h
  case isTrue hlt =>
    cases h
    simp [hlt]
  case isFalse hge =>
    cases hsb : scoreBars rk style bf us (specials.filter (fun s => s.day == day)) 0 <;>
      rw [hsb] at h
    · simp at h
    case some bs =>
      simp only [Option.some.injEq] at h
      subst h
      have hlen := scoreBars_length rk style bf us _ 0 bs hsb
      simp only [List.length_map, List.enum_length, List.length_take,
        List.length_mergeSort, hlen]
      rw [if_neg hge]
      omega

/-- C1 counterexample: with two distinct Friday bars and `num_stops = 3`,
the code returns the empty route, not a route of length
`min 3 (number of distinct bars) = 2` as the claim states. -/
theorem c1_counterexample :
    generate_optimal_route
        [⟨"A", "Friday", "dA"⟩, ⟨"B", "Friday", "dB"⟩] "Friday"
        (fun _ => some 5) 3 "Optimized" false (fun _ => 0) = some [] ∧
    ((([⟨"A", "Friday", "dA"⟩, ⟨"B", "Friday", "dB"⟩] : List Special).filter
        (fun s => s.day == "Friday")).map Special.bar).dedup = ["A", "B"] ∧
    ([] : List RouteStop).length ≠ min 3 (["A", "B"] : List String).length := by
  refine ⟨by rfl, by decide, by decide⟩

/-- C1 witness: one Friday special and `num_stops = 1` produce a length-1
route, matching the amended length formula. -/
theorem c1_witness :
    generate_optimal_route [⟨"A", "Friday", "d"⟩] "Friday" (fun _ => some 5) 1
        "Optimized" false (fun _ => 0)
      = some [⟨"A", "d", 7.5, "Great way to kick off the night"⟩] ∧
    ([⟨"A", "d", (7.5 : ℚ), "Great way to kick off the night"⟩] : List RouteStop).length
      = if (([⟨"A", "Friday", "d"⟩] : List Special).filter
          (fun s => s.day == "Friday")).length < 1 then 0 else 1 := by
  have hfil : ([⟨"A", "Friday", "d"⟩] : List Special).filter
      (fun s => s.day == "Friday") = [⟨"A", "Friday", "d"⟩] := rfl
  have hsb : scoreBars (fun _ => some 5) "Optimized" false (fun _ => 0)
      [⟨"A", "Friday", "d"⟩] 0 = some [scoreBar "Optimized" false 0 "A" "d" 5] := rfl
  have hms : ([scoreBar "Optimized" false 0 "A" "d" 5]).mergeSort leBar
      = [scoreBar "Optimized" false 0 "A" "d" 5] := List.mergeSort_singleton _
  have hreason : generate_bar_reason (scoreBar "Optimized" false 0 "A" "d" 5) 0
      "Optimized" false = "Great way to kick off the night" := rfl
  have h : generate_optimal_route [⟨"A", "Friday", "d"⟩] "Friday"
      (fun _ => some 5) 1 "Optimized" false (fun _ => 0)
      = some [⟨"A", "d", 7.5, "Great way to kick off the night"⟩] := by
    simp only [generate_optimal_route, hfil, hsb, hms]
    rw [if_neg (by norm_num)]
    simp only [List.take, List.enum, List.enumFrom, List.map, hreason]
    norm_num [scoreBar, RouteStop.mk.injEq]
    exact fun _ => by decide
  exact ⟨h, c1_route_length _ _ _ _ _ _ _ _ h⟩

/-- C2: every candidate scored with style "Optimized" has
`total_score = rating + deal_score * 0.5`, and with `budget_focus = false`
(neutral deal score 5) `total_score = rating + 2.5`. -/
theorem c2_optimized_score (rk : String → Option ℚ) (bf : Bool) (us : Nat → ℚ)
    (rows : List Special) (i : Nat) (bs : List ScoredBar)
    (h : scoreBars rk "Optimized" bf us rows i = some bs) :
    ∀ sb ∈ bs, sb.total_score = sb.rating + sb.deal_score * 0.5 ∧
      (bf = false → sb.total_score = sb.rating + 2.5) := by
  intro sb hsb
  obtain ⟨j, r, row, -, -, rfl⟩ := scoreBars_mem rk "Optimized" bf us rows i bs h sb hsb
  constructor
  · simp [scoreBar]
  · intro hbf
    subst hbf
    simp [scoreBar]
    norm_num

/-- C2 witness: a single optimized, non-budget candidate with rating 7 gets
total score `7 + 2.5`. -/
theorem c2_witness :
    (scoreBar "Optimized" false 0 "A" "d" 7).total_score =
      (scoreBar "Optimized" false 0 "A" "d" 7).rating +
        (scoreBar "Optimized" false 0 "A" "d" 7).deal_score * 0.5 ∧
    (scoreBar "Optimized" false 0 "A" "d" 7).total_score =
      (scoreBar "Optimized" false 0 "A" "d" 7).rating + 2.5 := by
  have h := c2_optimized_score (fun _ => some 7) false (fun _ => 0)
    [⟨"A", "Friday", "d"⟩] 0 [scoreBar "Optimized" false 0 "A" "d" 7] rfl
    (scoreBar "Optimized" false 0 "A" "d" 7) (List.mem_singleton.mpr rfl)
  exact ⟨h.1, h.2 rfl⟩

/-- C8: when some bar of the selected day has no rating entry and the day has
at least `num_stops` rows, the route builder fails (the modelled `KeyError`)
instead of substituting a default rating. -/
theorem c8_missing_rating_error (specials : List Special) (day : String)
    (rk : String → Option ℚ) (num_stops : Nat) (style : String) (bf : Bool)
    (us : Nat → ℚ) (row : Special)
    (hmem : row ∈ specials.filter (fun s => s.day == day))
    (hmiss : rk row.bar = none)
    (hen : num_stops ≤ (specials.filter (fun s => s.day == day)).length) :
    generate_optimal_route specials day rk num_stops style bf us = none := by
  simp only [generate_optimal_route]
  rw [if_neg (by omega)]
  rw [scoreBars_none rk style bf us _ 0 row hmem hmiss]

/-- C8 witness: one Friday special whose bar has no rating makes the builder
fail. -/
theorem c8_witness :
    (⟨"A", "Friday", "d"⟩ : Special) ∈
      ([⟨"A", "Friday", "d"⟩] : List Special).filter (fun s => s.day == "Friday") ∧
    generate_optimal_route [⟨"A", "Friday", "d"⟩] "Friday" (fun _ => none) 1
      "Optimized" false (fun _ => 0) = none :=
  ⟨by decide,
   c8_missing_rating_error [⟨"A", "Friday", "d"⟩] "Friday" (fun _ => none) 1
     "Optimized" false (fun _ => 0) ⟨"A", "Friday", "d"⟩ (by decide) rfl (by decide)⟩

/-- C9: with style "Adventure Mix" and every injected draw in `[0, 2)`, each
candidate's total score lies in
`[rating + deal_score * 0.3, rating + deal_score * 0.3 + 2)`, and re-running
the builder with the same draw source yields the same route. -/
theorem c9_adventure_bounds (rk : String → Option ℚ) (bf : Bool) (us : Nat → ℚ)
    (rows : List Special) (i : Nat) (bs : List ScoredBar)
    (hu : ∀ j, 0 ≤ us j ∧ us j < 2)
    (h : scoreBars rk "Adventure Mix" bf us rows i = some bs) :
    (∀ sb ∈ bs,
      sb.rating + sb.deal_score * 0.3 ≤ sb.total_score ∧
      sb.total_score < sb.rating + sb.deal_score * 0.3 + 2) ∧
    (∀ (specials : List Special) (day : String) (n : Nat),
      generate_optimal_route specials day rk n "Adventure Mix" bf us =
        generate_optimal_route specials day rk n "Adventure Mix" bf us) := by
  refine ⟨?_, fun _ _ _ => rfl⟩
  intro sb hsb
  obtain ⟨j, r, row, -, -, rfl⟩ :=
    scoreBars_mem rk "Adventure Mix" bf us rows i bs h sb hsb
  obtain ⟨hu0, hu2⟩ := hu j
  constructor <;> simp [scoreBar] <;> linarith

/-- C9 witness: a single Adventure Mix candidate with rating 7, neutral deal
score and draw 1 has total score in the claimed interval. -/
theorem c9_witness :
    (scoreBar "Adventure Mix" false 1 "A" "d" 7).rating +
        (scoreBar "Adventure Mix" false 1 "A" "d" 7).deal_score * 0.3 ≤
      (scoreBar "Adventure Mix" false 1 "A" "d" 7).total_score ∧
    (scoreBar "Adventure Mix" false 1 "A" "d" 7).total_score <
      (scoreBar "Adventure Mix" false 1 "A" "d" 7).rating +
        (scoreBar "Adventure Mix" false 1 "A" "d" 7).deal_score * 0.3 + 2 :=
  (c9_adventure_bounds (fun _ => some 7) false (fun _ => 1)
      [⟨"A", "Friday", "d"⟩] 0 [scoreBar "Adventure Mix" false 1 "A" "d" 7]
      (fun _ => by norm_num) rfl).1
    (scoreBar "Adventure Mix" false 1 "A" "d" 7) (List.mem_singleton.mpr rfl)

/-! ### Reason-generator claim -/

/-- C6: the "Perfect finale to your night out" branch of
`generate_bar_reason` is dead code (`position == len([]) - 1` compares a
non-negative index with `-1`): every position ≥ 1 returns
"Excellent mid-night stop", and every return value is one of the three
position messages, so the "High personal rating" clause never surfaces. -/
theorem c6_finale_unreachable (b : ScoredBar) (position : Nat) (style : String)
    (bf : Bool) :
    (1 ≤ position →
      generate_bar_reason b position style bf = "Excellent mid-night stop") ∧
    (generate_bar_reason b position style bf =
        "Perfect starter - one of your top-rated bars" ∨
      generate_bar_reason b position style bf = "Great way to kick off the night" ∨
      generate_bar_reason b position style bf = "Excellent mid-night stop") := by
  constructor
  · intro hpos
    simp only [generate_bar_reason]
    split_ifs <;> simp_all
  · simp only [generate_bar_reason]
    split_ifs <;> simp_all

/-- C6 witness: position 1 with a high rating 9 still returns the mid-night
message (not the finale and not the high-rating message). -/
theorem c6_witness :
    generate_bar_reason (scoreBar "Optimized" false 0 "A" "d" 9) 1 "Optimized"
      false = "Excellent mid-night stop" :=
  (c6_finale_unreachable (scoreBar "Optimized" false 0 "A" "d" 9) 1 "Optimized"
    false).1 (by norm_num)

/-! ### Tip-generator claim -/

set_option maxHeartbeats 1600000 in
/-- C7 (amended): `generate_route_tips` always has at least 2 entries, holds
the pacing tip iff the route has ≥ 4 stops, and holds the happy-hour timing
tip iff the space-joined concatenation of the stops' lowercased deal texts
contains "happy hour" (which can also arise across the boundary of two
adjacent stops' texts, not only inside a single stop's text). -/
theorem c7_tips (route : List RouteStop) (style : String) (bf : Bool) :
    2 ≤ (generate_route_tips route style bf).length ∧
    ("⏰ Pace yourself - that's a lot of stops for one night!" ∈
        generate_route_tips route style bf ↔ 4 ≤ route.length) ∧
    ("⏰ Plan your timing around happy hour specials" ∈
        generate_route_tips route style bf ↔
      strContains (joinedDeals route) "happy hour" = true) := by
  refine ⟨?_, ?_, ?_⟩
  · simp only [generate_route_tips]
    split_ifs <;> simp_all
  · simp only [generate_route_tips]
    split_ifs <;> simp_all
  · simp only [generate_route_tips]
    split_ifs <;> simp_all

/-- C7 counterexample to the original claim: "happy" at the end of one stop
and "hour" at the start of the next make the happy-hour tip appear although
no single stop's deal text contains "happy hour". -/
theorem c7_counterexample :
    "⏰ Plan your timing around happy hour specials" ∈
      generate_route_tips
        [⟨"A", "get happy", 0, ""⟩, ⟨"B", "hour drinks", 0, ""⟩]
        "Optimized" false ∧
    strContains (lowerStr "get happy") "happy hour" = false ∧
    strContains (lowerStr "hour drinks") "happy hour" = false := by
  refine ⟨?_, rfl, rfl⟩
  have hj : strContains
      (joinedDeals [⟨"A", "get happy", 0, ""⟩, ⟨"B", "hour drinks", 0, ""⟩])
      "happy hour" = true := rfl
  have hd : strContains
      (joinedDeals [⟨"A", "get happy", 0, ""⟩, ⟨"B", "hour drinks", 0, ""⟩])
      "draft" = false := rfl
  simp only [generate_route_tips, hj, hd]
  simp

/-! ### Sortedness and stability of the route -/

theorem leBar_trans : ∀ a b c : ScoredBar, leBar a b → leBar b c → leBar a c := by
  intro a b c
  simp only [leBar, decide_eq_true_eq]
  exact fun h1 h2 => le_trans h2 h1

theorem leBar_total : ∀ a b : ScoredBar, leBar a b || leBar b a := by
  intro a b
  simp only [leBar, Bool.or_eq_true, decide_eq_true_eq]
  exact le_total _ _

/-- C3: for a route actually built (non-empty result), the stops are
monotonically non-increasing in score, the route order is exactly the
sorted-selected order of the scored candidates (bar and score per position),
and the stable sort keeps candidates with equal total score in their
first-seen input order: any equal-score pair that occurs as a sublist of the
candidate list is still a sublist of the sorted list. -/
theorem c3_route_order (specials : List Special) (day : String)
    (rk : String → Option ℚ) (n : Nat) (style : String) (bf : Bool)
    (us : Nat → ℚ) (bs : List ScoredBar) (rt : List RouteStop)
    (hsb : scoreBars rk style bf us
      (specials.filter (fun s => s.day == day)) 0 = some bs)
    (h : generate_optimal_route specials day rk n style bf us = some rt)
    (hne : rt ≠ []) :
    List.Pairwise (fun x y : RouteStop => y.score ≤ x.score) rt ∧
    rt.map (fun s => (s.bar, s.score)) =
      ((bs.mergeSort leBar).take n).map (fun b => (b.bar, b.total_score)) ∧
    (∀ a b : ScoredBar, a.total_score = b.total_score →
      List.Sublist [a, b] bs → List.Sublist [a, b] (bs.mergeSort leBar)) := by
  simp only [generate_optimal_route] at h
  split at h
  case isTrue hlt =>
    cases h
    exact absurd rfl hne
  case isFalse hge =>
    rw [hsb] at h
    simp only [Option.some.injEq] at h
    subst h
    refine ⟨?_, ?_, ?_⟩
    · have hs : ((bs.mergeSort leBar).take n).Pairwise
          (fun a b : ScoredBar => leBar a b) :=
        List.Pairwise.sublist (List.take_sublist n _)
          (List.sorted_mergeSort leBar_trans leBar_total bs)
      rw [List.pairwise_map]
      have hs2 : (((bs.mergeSort leBar).take n).enum).Pairwise
          (fun p q : Nat × ScoredBar => leBar p.2 q.2) := by
        rw [← List.enum_map_snd ((bs.mergeSort leBar).take n),
          List.pairwise_map] at hs
        exact hs
      refine hs2.imp ?_
      intro p q hpq
      simpa [leBar] using hpq
    · rw [List.map_map]
      conv_rhs =>
        rw [← List.enum_map_snd ((bs.mergeSort leBar).take n), List.map_map]
      rfl
    · intro a b hab hsub
      refine List.pair_sublist_mergeSort leBar_trans leBar_total ?_ hsub
      simp [leBar, hab]

/-- C3 witness: a one-stop route built from a single rated bar satisfies the
non-increasing-score property. -/
theorem c3_witness :
    List.Pairwise (fun x y : RouteStop => y.score ≤ x.score)
      [⟨"Z", "d", 11.5, "Perfect starter - one of your top-rated bars"⟩] := by
  have hfil : ([⟨"Z", "Friday", "d"⟩] : List Special).filter
      (fun s => s.day == "Friday") = [⟨"Z", "Friday", "d"⟩] := rfl
  have hsb : scoreBars (fun _ => some 9) "Optimized" false (fun _ => 0)
      (([⟨"Z", "Friday", "d"⟩] : List Special).filter (fun s => s.day == "Friday")) 0
      = some [scoreBar "Optimized" false 0 "Z" "d" 9] := rfl
  have hsb2 : scoreBars (fun _ => some 9) "Optimized" false (fun _ => 0)
      [⟨"Z", "Friday", "d"⟩] 0 = some [scoreBar "Optimized" false 0 "Z" "d" 9] := rfl
  have hms : ([scoreBar "Optimized" false 0 "Z" "d" 9]).mergeSort leBar
      = [scoreBar "Optimized" false 0 "Z" "d" 9] := List.mergeSort_singleton _
  have hreason : generate_bar_reason (scoreBar "Optimized" false 0 "Z" "d" 9) 0
      "Optimized" false = "Perfect starter - one of your top-rated bars" := rfl
  have h : generate_optimal_route [⟨"Z", "Friday", "d"⟩] "Friday"
      (fun _ => some 9) 1 "Optimized" false (fun _ => 0)
      = some [⟨"Z", "d", 11.5, "Perfect starter - one of your top-rated bars"⟩] := by
    simp only [generate_optimal_route, hfil, hsb2, hms]
    rw [if_neg (by norm_num)]
    simp only [List.take, List.enum, List.enumFrom, List.map, hreason]
    norm_num [scoreBar, RouteStop.mk.injEq]
    rw [if_neg (by decide), if_neg (by decide)]
  exact (c3_route_order _ _ _ _ _ _ _ _ _ hsb h (by simp)).1
